import Mathlib

/-!
Verification of the scale-based visibility state machine of the 3D stadium
website front-end (frontend/src/components/StadiumApp.ts and collaborators).

Shallow embedding conventions:
* JS numbers (camera distances, animation durations, camera coordinates) are
  modelled as exact rationals `ℚ`.
* The mutable `appState` object of `StadiumApp` becomes the `AppState`
  structure; methods that mutate it become functions `State → State × effects`.
* Fire-and-forget calls into scene objects (sphere fade, stadium fade,
  floodlight-intensity ramp, camera tween) are recorded as explicit command
  values (`SceneCmd`, `CameraCmd`) in the order the source issues them.
* `sceneElements.stadium` may be `undefined` (stadium load failure is caught
  in `init`); this is the `stadiumPresent` flag.  The sphere and the lighting
  system are constructed unconditionally in `init` (StadiumApp.ts lines 64,
  69) before the render loop starts, so they are modelled as always present.
-/

namespace StadiumWeb

/-- ZoomScale from frontend/src/types/index.ts: the union of the three string
literals sphere, stadium and detail. -/
inductive ZoomScale
  | sphere
  | stadium
  | detail
deriving DecidableEq, Repr

/-- ScaleThresholds from types/index.ts; `max = none` models `Infinity`. -/
structure ScaleThresholds where
  min : ℚ
  max : Option ℚ
deriving DecidableEq, Repr

/-- ScaleThresholdConfig from types/index.ts. -/
structure ScaleThresholdConfig where
  sphere : ScaleThresholds
  stadium : ScaleThresholds
  detail : ScaleThresholds
deriving DecidableEq, Repr

/-- SCALE_THRESHOLDS from frontend/src/utils/constants.ts lines 5-9. -/
def SCALE_THRESHOLDS : ScaleThresholdConfig :=
  { sphere := { min := 2500, max := none }
    stadium := { min := 500, max := some 2500 }
    detail := { min := 1, max := some 500 } }

/-- Scale classification, the if/else chain of `updateScaleBasedVisibility`
(StadiumApp.ts lines 267-274).  In the source `newScale` is initialised to
the current scale, but every branch of the chain overwrites it, so the
classification is a pure function of the distance alone. -/
def classify (distance : ℚ) : ZoomScale :=
  if distance ≥ SCALE_THRESHOLDS.sphere.min then ZoomScale.sphere
  else if distance ≥ SCALE_THRESHOLDS.stadium.min then ZoomScale.stadium
  else ZoomScale.detail

/-- AppState from types/index.ts, initial values in StadiumApp.ts lines 30-38. -/
structure AppState where
  currentZoomScale : ZoomScale
  sphereVisible : Bool
  stadiumTextVisible : Bool
  stadiumDetailVisible : Bool
  hasSeenIntroSequence : Bool
  isAnimationPlaying : Bool
  isTransitioning : Bool
deriving DecidableEq, Repr

/-- The part of `StadiumApp` the visibility orchestrator reads and writes:
its `appState` plus whether `sceneElements.stadium` is defined. -/
structure StadiumAppState where
  appState : AppState
  stadiumPresent : Bool
deriving DecidableEq, Repr

/-- Initial `appState` of StadiumApp.ts lines 30-38. -/
def initialAppState : AppState :=
  { currentZoomScale := ZoomScale.sphere
    sphereVisible := true
    stadiumTextVisible := false
    stadiumDetailVisible := false
    hasSeenIntroSequence := false
    isAnimationPlaying := true
    isTransitioning := false }

/-- Whole-app initial state, parametrised by whether the stadium model loaded. -/
def initialStadiumApp (stadiumPresent : Bool) : StadiumAppState :=
  { appState := initialAppState, stadiumPresent := stadiumPresent }

/-- A fire-and-forget visibility call issued by `updateElementVisibility` to a
scene object, together with the duration parameter the callee receives
(each callee declares the default `duration: number = 0.8`):
`sphere.updateVisibility`, `stadiumLoader.updateStadiumVisibility`, and
`lightingSystem.updateFloodlightIntensity`. -/
inductive SceneCmd
  | sphereVis (visible : Bool) (duration : ℚ)
  | stadiumVis (visible : Bool) (duration : ℚ)
  | floodlightIntensity (isDetailMode : Bool) (duration : ℚ)
deriving DecidableEq, Repr

/-- Duration parameter carried by a scene-object visibility command. -/
def cmdDuration : SceneCmd → ℚ
  | SceneCmd.sphereVis _ d => d
  | SceneCmd.stadiumVis _ d => d
  | SceneCmd.floodlightIntensity _ d => d

/-- Predicate picking the sphere commands out of a batch. -/
def isSphereCmd : SceneCmd → Bool
  | SceneCmd.sphereVis _ _ => true
  | _ => false

/-- Predicate picking the stadium commands out of a batch. -/
def isStadiumCmd : SceneCmd → Bool
  | SceneCmd.stadiumVis _ _ => true
  | _ => false

/-- Predicate picking the floodlight-intensity commands out of a batch. -/
def isFloodlightCmd : SceneCmd → Bool
  | SceneCmd.floodlightIntensity _ _ => true
  | _ => false

/-- updateElementVisibility (StadiumApp.ts lines 286-309).  The sphere block
updates `sphereVisible` and calls the sphere only when the desired visibility
differs; the stadium block calls `updateStadiumVisibility` whenever the
stadium object exists, with no change guard and no recorded state; the detail
block updates `stadiumDetailVisible` and calls the lighting system only when
the desired mode differs.  The `duration` parameter of each callee defaults
to `0.8` and the call sites pass no explicit duration. -/
def updateElementVisibility (s : StadiumAppState) : StadiumAppState × List SceneCmd :=
  let shouldShowSphere : Bool := decide (s.appState.currentZoomScale = ZoomScale.sphere)
  let app1 : AppState :=
    if shouldShowSphere ≠ s.appState.sphereVisible then
      { s.appState with sphereVisible := shouldShowSphere }
    else s.appState
  let sphereCmds : List SceneCmd :=
    if shouldShowSphere ≠ s.appState.sphereVisible then
      [SceneCmd.sphereVis shouldShowSphere 0.8]
    else []
  let shouldShowStadium : Bool := decide (s.appState.currentZoomScale ≠ ZoomScale.sphere)
  let stadiumCmds : List SceneCmd :=
    if s.stadiumPresent then [SceneCmd.stadiumVis shouldShowStadium 0.8] else []
  let shouldShowDetail : Bool := decide (s.appState.currentZoomScale = ZoomScale.detail)
  let app2 : AppState :=
    if shouldShowDetail ≠ app1.stadiumDetailVisible then
      { app1 with stadiumDetailVisible := shouldShowDetail }
    else app1
  let detailCmds : List SceneCmd :=
    if shouldShowDetail ≠ app1.stadiumDetailVisible then
      [SceneCmd.floodlightIntensity shouldShowDetail 0.8]
    else []
  ({ s with appState := app2 }, sphereCmds ++ stadiumCmds ++ detailCmds)

/-- updateScaleBasedVisibility (StadiumApp.ts lines 262-281): the per-frame
tick of the orchestrator.  The camera-to-target distance is computed by the
external camera/controls pair and is taken here as the input.  If the newly
classified scale equals the current one, nothing happens; otherwise
`currentZoomScale` is updated and `updateElementVisibility` runs. -/
def updateScaleBasedVisibility (distance : ℚ) (s : StadiumAppState) :
    StadiumAppState × List SceneCmd :=
  let newScale := classify distance
  if newScale ≠ s.appState.currentZoomScale then
    updateElementVisibility
      { s with appState := { s.appState with currentZoomScale := newScale } }
  else (s, [])

/-- Runs the tick over a list of per-frame distances, collecting the command
batch of each frame. -/
def runTicks : List ℚ → StadiumAppState → StadiumAppState × List (List SceneCmd)
  | [], s => (s, [])
  | d :: ds, s =>
    let step := updateScaleBasedVisibility d s
    let rest := runTicks ds step.1
    (rest.1, step.2 :: rest.2)

/-- A camera position, as in CAMERA_POSITIONS of constants.ts; the decimal
literals of the source are modelled as exact rationals. -/
structure CameraPosition where
  x : ℚ
  y : ℚ
  z : ℚ
deriving DecidableEq, Repr

/-- Shape of the CAMERA_POSITIONS table of constants.ts. -/
structure CameraPositionsConfig where
  SPHERE_START : CameraPosition
  DETAIL_END : CameraPosition
deriving DecidableEq, Repr

/-- CAMERA_POSITIONS from frontend/src/utils/constants.ts lines 11-14. -/
def CAMERA_POSITIONS : CameraPositionsConfig :=
  { SPHERE_START := { x := 0, y := 0, z := 4000 }
    DETAIL_END :=
      { x := 19.4319229067779, y := 9.883097359294862, z := 21.532109433098107 } }

/-- Shape of the ANIMATION_DURATIONS table of constants.ts. -/
structure AnimationDurationsConfig where
  INTRO_ZOOM : ℚ
  CAMERA_TRANSITION : ℚ
  VISIBILITY_FADE : ℚ
deriving DecidableEq, Repr

/-- ANIMATION_DURATIONS from frontend/src/utils/constants.ts lines 32-36. -/
def ANIMATION_DURATIONS : AnimationDurationsConfig :=
  { INTRO_ZOOM := 5.0, CAMERA_TRANSITION := 2.0, VISIBILITY_FADE := 0.8 }

/-- The three user-input enable flags of the external OrbitControls that
`startIntroSequence` toggles. -/
structure ControlsState where
  enableRotate : Bool
  enableZoom : Bool
  enablePan : Bool
deriving DecidableEq, Repr

/-- The part of the application the intro sequencer reads and writes: the
control flags plus the `hasSeenIntroSequence` flag of `appState`. -/
structure IntroState where
  controls : ControlsState
  hasSeenIntroSequence : Bool
deriving DecidableEq, Repr

/-- A camera animation command, recording a `gsap.to` call on the camera
position with its target and duration. -/
inductive CameraCmd
  | animateTo (target : CameraPosition) (duration : ℚ)
deriving DecidableEq, Repr

/-- State of the intro sequencer before `startIntroSequence` runs: controls
fully enabled (initControls, StadiumApp.ts lines 144-159, sets no disable),
`hasSeenIntroSequence := false` (StadiumApp.ts line 35). -/
def introInitial : IntroState :=
  { controls := { enableRotate := true, enableZoom := true, enablePan := true }
    hasSeenIntroSequence := false }

/-- startIntroSequence (StadiumApp.ts lines 192-221): unconditionally disables
rotate, zoom and pan, then issues one camera animation command to DETAIL_END
over INTRO_ZOOM seconds — but only when `gsap` is defined; with `gsap`
undefined no command is issued and nothing else happens.  The function reads
no flag before acting: there is no re-entrance guard.  The onComplete
callback of the issued tween is `introOnComplete`; when no command is issued
there is no tween and hence no completion callback. -/
def startIntroSequence (gsapAvailable : Bool) (s : IntroState) :
    IntroState × List CameraCmd :=
  let s1 : IntroState :=
    { s with controls := { enableRotate := false, enableZoom := false, enablePan := false } }
  if gsapAvailable then
    (s1, [CameraCmd.animateTo CAMERA_POSITIONS.DETAIL_END ANIMATION_DURATIONS.INTRO_ZOOM])
  else
    (s1, [])

/-- The onComplete callback of the intro tween (StadiumApp.ts lines 210-218):
re-enables rotate, zoom and pan and sets `hasSeenIntroSequence`. -/
def introOnComplete (s : IntroState) : IntroState :=
  { s with
    controls := { enableRotate := true, enableZoom := true, enablePan := true }
    hasSeenIntroSequence := true }

/-- One named band of the threshold table, in the form the spec describes:
a scale name with a half-open interval, `max = none` meaning Infinity. -/
structure ScaleBand where
  scale : ZoomScale
  min : ℚ
  max : Option ℚ
deriving DecidableEq, Repr

/-- The threshold table as an ordered list of bands, in the priority order
given by constants.ts and spec section 4.1: sphere, stadium, detail. -/
def scaleBands : List ScaleBand :=
  [{ scale := ZoomScale.sphere, min := SCALE_THRESHOLDS.sphere.min,
     max := SCALE_THRESHOLDS.sphere.max },
   { scale := ZoomScale.stadium, min := SCALE_THRESHOLDS.stadium.min,
     max := SCALE_THRESHOLDS.stadium.max },
   { scale := ZoomScale.detail, min := SCALE_THRESHOLDS.detail.min,
     max := SCALE_THRESHOLDS.detail.max }]

/-- Band membership as the spec words it: the half-open interval from min
inclusive to max exclusive contains the distance, Infinity unbounded. -/
def bandContains (b : ScaleBand) (d : ℚ) : Bool :=
  decide (b.min ≤ d) &&
    match b.max with
    | none => true
    | some m => decide (d < m)

/-- The fallback rule as the spec words it: the lowest-indexed band whose min
is at most the distance, if any. -/
def specFallback (d : ℚ) : Option ZoomScale :=
  (scaleBands.find? fun b => decide (b.min ≤ d)).map ScaleBand.scale

/-- The classification algorithm as spec section 4.1 words it, stated for
comparison against the `classify` of the source: first band whose interval
contains the distance, else the fallback rule. -/
def classifySpec (d : ℚ) : Option ZoomScale :=
  match scaleBands.find? (fun b => bandContains b d) with
  | some b => some b.scale
  | none => specFallback d

/-- The visibility flags agree with the stored scale: sphere visible exactly
at sphere scale, detail lighting high exactly at detail scale. -/
def visInv (s : StadiumAppState) : Prop :=
  (s.appState.sphereVisible = true ↔ s.appState.currentZoomScale = ZoomScale.sphere) ∧
  (s.appState.stadiumDetailVisible = true ↔ s.appState.currentZoomScale = ZoomScale.detail)

/-! ## Helper lemmas -/

/-- Unfolding lemma: `updateElementVisibility` never changes the current scale. -/
theorem updateElementVisibility_scale (s : StadiumAppState) :
    (updateElementVisibility s).1.appState.currentZoomScale = s.appState.currentZoomScale := by
  simp only [updateElementVisibility]
  split_ifs <;> rfl

/-- After `updateElementVisibility`, the sphere visibility flag always equals
the desired visibility of the current scale, whether or not a command fired. -/
theorem updateElementVisibility_sphereVisible (s : StadiumAppState) :
    (updateElementVisibility s).1.appState.sphereVisible =
      decide (s.appState.currentZoomScale = ZoomScale.sphere) := by
  simp only [updateElementVisibility]
  split_ifs <;> simp_all [not_ne_iff]

/-- After `updateElementVisibility`, the detail flag always equals the desired
detail mode of the current scale, whether or not a command fired. -/
theorem updateElementVisibility_stadiumDetailVisible (s : StadiumAppState) :
    (updateElementVisibility s).1.appState.stadiumDetailVisible =
      decide (s.appState.currentZoomScale = ZoomScale.detail) := by
  simp only [updateElementVisibility]
  split_ifs <;> simp_all [not_ne_iff]

/-- Every command issued by `updateElementVisibility` carries the default
duration 0.8. -/
theorem updateElementVisibility_duration (s : StadiumAppState) (c : SceneCmd)
    (hc : c ∈ (updateElementVisibility s).2) : cmdDuration c = 0.8 := by
  simp only [updateElementVisibility, List.mem_append] at hc
  split_ifs at hc <;>
    simp only [List.mem_singleton, List.not_mem_nil, or_false, false_or] at hc <;>
    cases c <;> simp_all [cmdDuration]

/-- With the stadium absent, `updateElementVisibility` issues no stadium
command. -/
theorem updateElementVisibility_no_stadium (s : StadiumAppState) (c : SceneCmd)
    (hs : s.stadiumPresent = false) (hc : c ∈ (updateElementVisibility s).2) :
    isStadiumCmd c = false := by
  simp only [updateElementVisibility, List.mem_append, hs] at hc
  split_ifs at hc <;>
    simp only [List.mem_singleton, List.not_mem_nil, or_false, false_or] at hc <;>
    cases c <;> simp_all [isStadiumCmd]

/-- After any tick, the stored scale is the classification of the distance the
tick received. -/
theorem tick_scale (d : ℚ) (s : StadiumAppState) :
    (updateScaleBasedVisibility d s).1.appState.currentZoomScale = classify d := by
  simp only [updateScaleBasedVisibility]
  split
  · rw [updateElementVisibility_scale]
  · next h =>
    rw [not_ne_iff] at h
    exact h.symm

/-- updateElementVisibility establishes the visibility invariant outright. -/
theorem updateElementVisibility_visInv (s : StadiumAppState) :
    visInv (updateElementVisibility s).1 := by
  unfold visInv
  rw [updateElementVisibility_sphereVisible, updateElementVisibility_stadiumDetailVisible,
    updateElementVisibility_scale]
  constructor <;> simp

/-- One tick preserves the visibility invariant. -/
theorem tick_visInv (d : ℚ) (s : StadiumAppState) (h : visInv s) :
    visInv (updateScaleBasedVisibility d s).1 := by
  simp only [updateScaleBasedVisibility]
  split
  · exact updateElementVisibility_visInv _
  · exact h

/-- Any tick sequence preserves the visibility invariant. -/
theorem runTicks_visInv (ds : List ℚ) (s : StadiumAppState) (h : visInv s) :
    visInv (runTicks ds s).1 := by
  induction ds generalizing s with
  | nil => exact h
  | cons d ds ih => exact ih _ (tick_visInv d s h)

/-- Exact per-object command counts of one `updateElementVisibility` call:
the sphere and the floodlights are commanded exactly when their desired state
differs from the recorded one; the stadium is commanded exactly when it is
present, with no change guard. -/
theorem updateElementVisibility_counts (s : StadiumAppState) :
    ((updateElementVisibility s).2.countP isSphereCmd =
      if decide (s.appState.currentZoomScale = ZoomScale.sphere) ≠ s.appState.sphereVisible
      then 1 else 0) ∧
    ((updateElementVisibility s).2.countP isStadiumCmd = if s.stadiumPresent then 1 else 0) ∧
    ((updateElementVisibility s).2.countP isFloodlightCmd =
      if decide (s.appState.currentZoomScale = ZoomScale.detail) ≠ s.appState.stadiumDetailVisible
      then 1 else 0) := by
  simp only [updateElementVisibility]
  split_ifs <;>
    simp_all [List.countP_append, List.countP_cons, isSphereCmd, isStadiumCmd, isFloodlightCmd]

/-! ## Claim theorems -/

/-- Claim C1: for every finite non-negative distance, classification returns
exactly one of sphere, stadium, detail; and each boundary value resolves to
the band naming that value as its minimum: classify 2500 = sphere,
classify 500 = stadium, classify 1 = detail. -/
theorem classify_totality_and_boundaries :
    (∀ d : ℚ, 0 ≤ d →
      (classify d = ZoomScale.sphere ∧ classify d ≠ ZoomScale.stadium ∧
        classify d ≠ ZoomScale.detail) ∨
      (classify d ≠ ZoomScale.sphere ∧ classify d = ZoomScale.stadium ∧
        classify d ≠ ZoomScale.detail) ∨
      (classify d ≠ ZoomScale.sphere ∧ classify d ≠ ZoomScale.stadium ∧
        classify d = ZoomScale.detail)) ∧
    classify 2500 = ZoomScale.sphere ∧ classify 500 = ZoomScale.stadium ∧
      classify 1 = ZoomScale.detail := by
  refine ⟨fun d _ => ?_, by decide, by decide, by decide⟩
  unfold classify
  split_ifs <;> simp

/-- Witness for C1 at the concrete non-negative distance 7. -/
theorem classify_totality_and_boundaries_applied :
    (classify 7 = ZoomScale.sphere ∧ classify 7 ≠ ZoomScale.stadium ∧
      classify 7 ≠ ZoomScale.detail) ∨
    (classify 7 ≠ ZoomScale.sphere ∧ classify 7 = ZoomScale.stadium ∧
      classify 7 ≠ ZoomScale.detail) ∨
    (classify 7 ≠ ZoomScale.sphere ∧ classify 7 ≠ ZoomScale.stadium ∧
      classify 7 = ZoomScale.detail) :=
  classify_totality_and_boundaries.1 7 (by norm_num)

/-- Claim C2: the tick is a no-op whenever the newly classified scale equals
the current scale; after any tick, a further tick whose distance classifies
to the same scale returns the state unchanged and issues no commands; and the
distance sequence 3000, 3000, 1800, 1800, 300 from the initial sphere state
produces exactly two non-empty visibility transition batches, at the third
and fifth inputs. -/
theorem tick_noop_on_equal_scale :
    (∀ (s : StadiumAppState) (d : ℚ), classify d = s.appState.currentZoomScale →
      updateScaleBasedVisibility d s = (s, [])) ∧
    (∀ (s : StadiumAppState) (d e : ℚ), classify e = classify d →
      updateScaleBasedVisibility e (updateScaleBasedVisibility d s).1 =
        ((updateScaleBasedVisibility d s).1, [])) ∧
    (runTicks [3000, 3000, 1800, 1800, 300] (initialStadiumApp true)).2.map List.isEmpty =
      [true, true, false, true, false] := by
  have noop : ∀ (s : StadiumAppState) (d : ℚ), classify d = s.appState.currentZoomScale →
      updateScaleBasedVisibility d s = (s, []) := by
    intro s d h
    simp [updateScaleBasedVisibility, h]
  refine ⟨noop, ?_, by decide⟩
  intro s d e he
  exact noop _ e (by rw [tick_scale]; exact he)

/-- Witness for C2: tick 3000 from the initial sphere state is a no-op, and
after tick 1800 a tick 2000 (same stadium scale) is a no-op. -/
theorem tick_noop_on_equal_scale_applied :
    updateScaleBasedVisibility 3000 (initialStadiumApp true) = (initialStadiumApp true, []) ∧
    updateScaleBasedVisibility 2000 (updateScaleBasedVisibility 1800 (initialStadiumApp true)).1 =
      ((updateScaleBasedVisibility 1800 (initialStadiumApp true)).1, []) :=
  ⟨tick_noop_on_equal_scale.1 (initialStadiumApp true) 3000 (by decide),
   tick_noop_on_equal_scale.2.1 (initialStadiumApp true) 1800 2000 (by decide)⟩

/-- Counterexample to claim C3: on the stadium-to-detail scale change the
stadium object receives a visibility command even though its desired
visibility (visible) is unchanged — from the initial state, tick 1800 reaches
stadium scale and commands the stadium visible; the subsequent tick 300 to
detail scale again contains a stadium command with the same target. -/
theorem stadium_command_on_unchanged_visibility :
    (updateScaleBasedVisibility 1800 (initialStadiumApp true)).2 =
      [SceneCmd.sphereVis false 0.8, SceneCmd.stadiumVis true 0.8] ∧
    (updateScaleBasedVisibility 1800 (initialStadiumApp true)).1.appState.currentZoomScale =
      ZoomScale.stadium ∧
    (updateScaleBasedVisibility 300
        (updateScaleBasedVisibility 1800 (initialStadiumApp true)).1).2 =
      [SceneCmd.stadiumVis true 0.8, SceneCmd.floodlightIntensity true 0.8] :=
  ⟨rfl, rfl, rfl⟩

/-- Claim C3 as amended: on every genuine scale change each scene object
receives at most one command; the sphere and the detail lighting receive one
exactly when their desired state differs from the recorded state, but the
stadium receives one whenever it is present, with no unchanged-state guard. -/
theorem tick_per_object_command_counts (s : StadiumAppState) (d : ℚ)
    (hchange : classify d ≠ s.appState.currentZoomScale) :
    ((updateScaleBasedVisibility d s).2.countP isSphereCmd =
      if decide (classify d = ZoomScale.sphere) ≠ s.appState.sphereVisible then 1 else 0) ∧
    ((updateScaleBasedVisibility d s).2.countP isStadiumCmd =
      if s.stadiumPresent then 1 else 0) ∧
    ((updateScaleBasedVisibility d s).2.countP isFloodlightCmd =
      if decide (classify d = ZoomScale.detail) ≠ s.appState.stadiumDetailVisible
      then 1 else 0) := by
  simp only [updateScaleBasedVisibility, if_pos hchange]
  exact updateElementVisibility_counts
    { s with appState := { s.appState with currentZoomScale := classify d } }

/-- Witness for amended C3 at the genuine scale change tick 1800 from the
initial state. -/
theorem tick_per_object_command_counts_applied :
    ((updateScaleBasedVisibility 1800 (initialStadiumApp true)).2.countP isSphereCmd =
      if decide (classify 1800 = ZoomScale.sphere) ≠ (initialStadiumApp true).appState.sphereVisible
      then 1 else 0) ∧
    ((updateScaleBasedVisibility 1800 (initialStadiumApp true)).2.countP isStadiumCmd =
      if (initialStadiumApp true).stadiumPresent then 1 else 0) ∧
    ((updateScaleBasedVisibility 1800 (initialStadiumApp true)).2.countP isFloodlightCmd =
      if decide (classify 1800 = ZoomScale.detail) ≠
          (initialStadiumApp true).appState.stadiumDetailVisible
      then 1 else 0) :=
  tick_per_object_command_counts (initialStadiumApp true) 1800 (by decide)

/-- Counterexample to claim C4: after the first intro run and its completion
callback (which does set the one-shot flag), a second invocation is not a
no-op — it issues a second camera animation command. -/
theorem intro_second_run_issues_command :
    (introOnComplete (startIntroSequence true introInitial).1).hasSeenIntroSequence = true ∧
    (startIntroSequence true (introOnComplete (startIntroSequence true introInitial).1)).2 =
      [CameraCmd.animateTo CAMERA_POSITIONS.DETAIL_END ANIMATION_DURATIONS.INTRO_ZOOM] :=
  ⟨rfl, rfl⟩

/-- Claim C4 as amended: the completion callback sets the hasSeenIntroSequence
flag, but the flag is never consulted: whenever gsap is available,
startIntroSequence issues the camera animation command on every invocation,
whatever the state — there is no re-entrance guard. -/
theorem intro_flag_set_but_never_consulted (s : IntroState) :
    (introOnComplete s).hasSeenIntroSequence = true ∧
    (startIntroSequence true s).2 =
      [CameraCmd.animateTo CAMERA_POSITIONS.DETAIL_END ANIMATION_DURATIONS.INTRO_ZOOM] :=
  ⟨rfl, rfl⟩

/-- Claim C5: every visibility transition command issued by a tick carries the
crossfade duration 0.8 seconds — this covers all three scene objects and both
directions, since every command in every batch is covered. -/
theorem tick_commands_carry_fade_duration (s : StadiumAppState) (d : ℚ) (c : SceneCmd)
    (hc : c ∈ (updateScaleBasedVisibility d s).2) : cmdDuration c = 0.8 := by
  simp only [updateScaleBasedVisibility] at hc
  split at hc
  · exact updateElementVisibility_duration _ c hc
  · simp at hc

/-- Witness for C5 on the sphere-hide command of tick 1800 from the initial
state. -/
theorem tick_commands_carry_fade_duration_applied :
    cmdDuration (SceneCmd.sphereVis false 0.8) = 0.8 :=
  tick_commands_carry_fade_duration (initialStadiumApp true) 1800
    (SceneCmd.sphereVis false 0.8) (List.mem_cons_self _ _)

/-- Claim C6: with the stadium scene object absent, no tick ever issues a
stadium command (the stadium step is skipped silently, and the embedding is a
total function, mirroring that the source guards the only unchecked access),
and the full scale sweep 3000, 1800, 300, 1800, 3000 evaluates completely,
returning to the initial state. -/
theorem tick_tolerates_missing_stadium :
    (∀ (s : StadiumAppState) (d : ℚ) (c : SceneCmd), s.stadiumPresent = false →
      c ∈ (updateScaleBasedVisibility d s).2 → isStadiumCmd c = false) ∧
    runTicks [3000, 1800, 300, 1800, 3000] (initialStadiumApp false) =
      (initialStadiumApp false,
        [[], [SceneCmd.sphereVis false 0.8], [SceneCmd.floodlightIntensity true 0.8],
         [SceneCmd.floodlightIntensity false 0.8], [SceneCmd.sphereVis true 0.8]]) := by
  refine ⟨?_, rfl⟩
  intro s d c hs hc
  simp only [updateScaleBasedVisibility] at hc
  split at hc
  · refine updateElementVisibility_no_stadium _ c ?_ hc
    exact hs
  · simp at hc

/-- Witness for C6 on the sphere-hide command of tick 1800 with the stadium
absent. -/
theorem tick_tolerates_missing_stadium_applied :
    isStadiumCmd (SceneCmd.sphereVis false 0.8) = false :=
  tick_tolerates_missing_stadium.1 (initialStadiumApp false) 1800
    (SceneCmd.sphereVis false 0.8) rfl (List.mem_singleton_self _)

/-- Claim C7 counterexample: at distance 0 (the uncovered gap below 1) the
code classifies to detail, but no band contains 0 and no band has min at most
0 — the fallback rule of the claim selects no band at all, so it cannot
account for the result. -/
theorem classify_gap_fallback_counterexample :
    classify 0 = ZoomScale.detail ∧ classifySpec 0 = none ∧
      (scaleBands.filter fun b => decide (b.min ≤ (0 : ℚ))) = [] :=
  ⟨rfl, rfl, rfl⟩

/-- Claim C7 as amended: classification agrees with evaluating the bands in
priority order and returning the first whose half-open interval contains the
distance; for a distance matched by no band the code returns detail
unconditionally (the final else branch), not a lowest-min fallback. -/
theorem classify_first_match_with_detail_default (d : ℚ) :
    (∀ b : ScaleBand, scaleBands.find? (fun x => bandContains x d) = some b →
      classify d = b.scale) ∧
    (scaleBands.find? (fun x => bandContains x d) = none → classify d = ZoomScale.detail) := by
  rcases le_or_lt 2500 d with h1 | h1
  · have hf : scaleBands.find? (fun x => bandContains x d) =
        some { scale := ZoomScale.sphere, min := 2500, max := none } := by
      simp only [scaleBands, SCALE_THRESHOLDS]
      rw [List.find?_cons_of_pos _ (by simp [bandContains, h1])]
    refine ⟨fun b hb => ?_, fun hn => by rw [hf] at hn; cases hn⟩
    rw [hf] at hb
    cases hb
    simp [classify, SCALE_THRESHOLDS, h1]
  · rcases le_or_lt 500 d with h2 | h2
    · have hf : scaleBands.find? (fun x => bandContains x d) =
          some { scale := ZoomScale.stadium, min := 500, max := some 2500 } := by
        simp only [scaleBands, SCALE_THRESHOLDS]
        rw [List.find?_cons_of_neg _ (by simp [bandContains, not_le.mpr h1]),
          List.find?_cons_of_pos _ (by simp [bandContains, h1, h2])]
      refine ⟨fun b hb => ?_, fun hn => by rw [hf] at hn; cases hn⟩
      rw [hf] at hb
      cases hb
      simp [classify, SCALE_THRESHOLDS, not_le.mpr h1, h2]
    · rcases le_or_lt 1 d with h3 | h3
      · have hf : scaleBands.find? (fun x => bandContains x d) =
            some { scale := ZoomScale.detail, min := 1, max := some 500 } := by
          simp only [scaleBands, SCALE_THRESHOLDS]
          rw [List.find?_cons_of_neg _ (by simp [bandContains, not_le.mpr h1]),
            List.find?_cons_of_neg _ (by simp [bandContains, not_le.mpr h2]),
            List.find?_cons_of_pos _ (by simp [bandContains, h2, h3])]
        refine ⟨fun b hb => ?_, fun hn => by rw [hf] at hn; cases hn⟩
        rw [hf] at hb
        cases hb
        simp [classify, SCALE_THRESHOLDS, not_le.mpr h1, not_le.mpr h2]
      · have hf : scaleBands.find? (fun x => bandContains x d) = none := by
          simp only [scaleBands, SCALE_THRESHOLDS]
          rw [List.find?_cons_of_neg _ (by simp [bandContains, not_le.mpr h1]),
            List.find?_cons_of_neg _ (by simp [bandContains, not_le.mpr h2]),
            List.find?_cons_of_neg _ (by simp [bandContains, not_le.mpr h3])]
          rfl
        refine ⟨fun b hb => ?_, fun _ => ?_⟩
        · rw [hf] at hb; cases hb
        · simp [classify, SCALE_THRESHOLDS, not_le.mpr h1, not_le.mpr h2]

/-- Witness for amended C7: the matched case at distance 3000 and the
unmatched case at distance 0. -/
theorem classify_first_match_with_detail_default_applied :
    classify 3000 = ZoomScale.sphere ∧ classify 0 = ZoomScale.detail :=
  ⟨(classify_first_match_with_detail_default 3000).1
      { scale := ZoomScale.sphere, min := 2500, max := none } (by decide),
   (classify_first_match_with_detail_default 0).2 (by decide)⟩

/-- Claim C8: with gsap unavailable, startIntroSequence still disables
rotate, zoom and pan, issues no camera animation command, and leaves the
hasSeenIntroSequence flag untouched; since no command is issued there is no
tween and the re-enabling completion callback never runs, so controls stay
disabled. -/
theorem intro_without_gsap_leaves_controls_disabled (s : IntroState) :
    startIntroSequence false s =
      ({ controls := { enableRotate := false, enableZoom := false, enablePan := false }
         hasSeenIntroSequence := s.hasSeenIntroSequence }, []) :=
  rfl

/-- Claim C9: every tick sequence from the initial state (sphere scale,
sphere visible, detail lighting low) maintains the invariant that the sphere
is visible exactly at sphere scale and the detail lighting is high exactly at
detail scale, with or without the stadium object. -/
theorem runTicks_visibility_invariant (stadiumPresent : Bool) (ds : List ℚ) :
    visInv (runTicks ds (initialStadiumApp stadiumPresent)).1 :=
  runTicks_visInv ds _ (by simp [visInv, initialStadiumApp, initialAppState])

/-- Claim C10: every distance strictly below 500 — gap values in [0,1) and
negative distances included — classifies to detail, never to the sphere
default. -/
theorem classify_below_stadium_min_is_detail (d : ℚ) (h : d < 500) :
    classify d = ZoomScale.detail := by
  simp only [classify, SCALE_THRESHOLDS, ge_iff_le]
  rw [if_neg (not_le.mpr (by linarith)), if_neg (not_le.mpr h)]

/-- Witness for C10 at the negative distance -1. -/
theorem classify_below_stadium_min_is_detail_applied :
    classify (-1) = ZoomScale.detail :=
  classify_below_stadium_min_is_detail (-1) (by norm_num)

end StadiumWeb
